import Mathlib

/-!
Shallow embedding of the feature-engineering core of the
`personalized-recommender` repository, and proofs of its specified
properties.

Tables (polars `DataFrame`s in the source) are embedded as Lean lists of
typed rows.  Column-vectorised polars expressions become per-row pure
functions mapped over the list.  Python/polars `Float64` ages are embedded
as `ℚ` (the comparisons the code performs are against small integer
bounds, where 64-bit floats behave exactly like the rationals they
denote).  Timestamps (`t_dat`) are embedded as their epoch-nanosecond
integer value: the repository's own conversion helper
`convert_t_dat_to_datetime` produces the column through
`pandas.to_datetime`, whose native resolution is `datetime64[ns]`.
-/

set_option maxRecDepth 100000

namespace RecSys

/-- Row of the raw customer table (source: `src/recsys/features/customers.py`).
`club_member_status` and `age` are nullable columns, embedded as `Option`. -/
structure CustomerRow where
  customer_id : String
  club_member_status : Option String
  age : Option ℚ
  postal_code : String
deriving DecidableEq, Repr

/-- Row of the raw transaction table (source:
`src/recsys/features/transactions.py`).  `t_dat` is the epoch-nanosecond
integer underlying the datetime column; `article_id` is a numeric
identifier before the string cast; `price` stands for the columns the
transformers never touch. -/
structure TransactionRow where
  customer_id : String
  article_id : Int
  t_dat : Int
  price : ℚ
deriving DecidableEq, Repr

/-- Size classes of `recsys.config.CustomerDatasetSize`. -/
inductive CustomerDatasetSize where
  | LARGE
  | MEDIUM
  | SMALL
deriving DecidableEq, Repr

namespace DatasetSampler

/-- The fixed size table `DatasetSampler._SIZES`
(`src/recsys/features/customers.py`, lines 10-14). -/
def SIZES : CustomerDatasetSize → Nat
  | .LARGE => 50000
  | .MEDIUM => 5000
  | .SMALL => 1000

/-- `DatasetSampler.get_supported_sizes` returns the fixed size table
(`src/recsys/features/customers.py`, lines 19-21). -/
def get_supported_sizes : CustomerDatasetSize → Nat := SIZES

end DatasetSampler

/-- Model of polars `DataFrame.sample(n=n)` as called by the source
(`customers_df.sample(n=n_customers)`, `customers.py` line 30): sampling
without replacement, and crucially with `seed=None`, so polars draws a
fresh random seed from the OS for every call; that per-call randomness is
made explicit as the `entropy` argument.  When `n` exceeds the height of
the frame polars raises a `ShapeError` (it neither clamps nor returns
fewer rows), embedded as `none`.  Otherwise the call returns `n` distinct
rows of the frame, which subset being a function of the fresh seed; the
selection rule used here (a window of `n` consecutive rows at an
entropy-dependent offset) stands in for polars' internal index sampler,
of which the claims use only: the output has exactly `n` rows, all drawn
from the input, and it varies with the per-call seed. -/
def polarsSampleRows (rows : List α) (n : Nat) (entropy : Nat) : Option (List α) :=
  if rows.length < n then none
  else some ((rows.drop (entropy % (rows.length - n + 1))).take n)

/-- Model of the inner join
`transaction_df.join(customers_df.select("customer_id"), on="customer_id")`
(`customers.py`, lines 35-37): each transaction row is emitted once per
occurrence of its `customer_id` among the sampled customers' ids (polars'
inner-join multiplicity), and dropped when there is no occurrence. -/
def joinOnCustomerId (txs : List TransactionRow) (ids : List String) : List TransactionRow :=
  txs.flatMap (fun t => (ids.filter (fun i => i == t.customer_id)).map (fun _ => t))

/-- The dict `{"customers": ..., "transactions": ...}` returned by
`DatasetSampler.sample`. -/
structure SampledDataset where
  customers : List CustomerRow
  transactions : List TransactionRow
deriving DecidableEq, Repr

/-- `DatasetSampler.sample` (`customers.py`, lines 23-42).  The source's
first statement, `random.seed(42)`, seeds the Python stdlib `random`
module's global generator; nothing in the rest of the function (polars
code) ever reads that generator, so the call has no bearing on the
result and is not an input of the embedding.  The polars sampler instead
consumes fresh per-call entropy, the explicit `entropy` argument (see
`polarsSampleRows`).  The two `logger.info` calls are observability only
and are not modelled. -/
def DatasetSampler.sample (size : CustomerDatasetSize)
    (customers_df : List CustomerRow) (transaction_df : List TransactionRow)
    (entropy : Nat) : Option SampledDataset :=
  match polarsSampleRows customers_df (DatasetSampler.SIZES size) entropy with
  | none => none
  | some sampled =>
      some ⟨sampled, joinOnCustomerId transaction_df (sampled.map (fun c => c.customer_id))⟩

/-- One row of `pl.col("club_member_status").fill_null("ABSENT")`: a null
status becomes the literal sentinel, a non-null one is unchanged; no
other column is touched. -/
def fillClubRow (r : CustomerRow) : CustomerRow :=
  { r with club_member_status := some (r.club_member_status.getD "ABSENT") }

/-- `filling_missing_club_member_status` (`customers.py`):
`df.with_columns(pl.col("club_member_status").fill_null("ABSENT"))`. -/
def filling_missing_club_member_status (df : List CustomerRow) : List CustomerRow :=
  df.map fillClubRow

/-- `drop_na_age` (`customers.py`): `df.drop_nulls(subset=["age"])`. -/
def drop_na_age (df : List CustomerRow) : List CustomerRow :=
  df.filter (fun r => r.age.isSome)

/-- `create_age_group` (`customers.py`, lines 70-92), applied to one age
value.  polars `is_between(a, b)` is inclusive on both ends by default,
and the `when/then` chain falls through to `otherwise(pl.lit("66+"))`. -/
def create_age_group (age : ℚ) : String :=
  if 0 ≤ age ∧ age ≤ 18 then "0-18"
  else if 19 ≤ age ∧ age ≤ 25 then "19-25"
  else if 26 ≤ age ∧ age ≤ 35 then "26-35"
  else if 36 ≤ age ∧ age ≤ 45 then "36-45"
  else if 46 ≤ age ∧ age ≤ 55 then "46-55"
  else if 56 ≤ age ∧ age ≤ 65 then "56-65"
  else "66+"

/-- Row of the cleaned customer feature table: exactly the five projected
columns `customer_id, club_member_status, age, postal_code, age_group`,
in that order.  `age` is the `Float64`-cast column, still nullable in the
polars schema, hence `Option ℚ`; the cast is value-preserving on the ages
involved. -/
structure CustomerFeatureRow where
  customer_id : String
  club_member_status : Option String
  age : Option ℚ
  postal_code : String
  age_group : String
deriving DecidableEq, Repr

/-- The `with_columns([create_age_group(), pl.col("age").cast(pl.Float64)])`
step followed by the five-column `select`, for one row.  On a null `age`
every `is_between` condition of the `when` chain is null, which polars
treats as not matched, so the `otherwise` literal `"66+"` is produced;
that branch is unreachable in the pipeline because `drop_na_age` runs
first. -/
def ageGroupAndCastRow (r : CustomerRow) : CustomerFeatureRow :=
  ⟨r.customer_id, r.club_member_status, r.age, r.postal_code,
    match r.age with
    | some a => create_age_group a
    | none => "66+"⟩

/-- `compute_features_customers` (`customers.py`, lines 94-137): fill
nulls in `club_member_status`, drop null-`age` rows, bin ages and cast
`age` to `Float64`, project to the five output columns, and, when
`drop_null_age` is true, run `drop_nulls(subset=["age"])` once more.
The source first validates that the four required columns are present
and raises `ValueError` otherwise; in this typed embedding every
`CustomerRow` carries the four columns, so that branch cannot trigger. -/
def compute_features_customers (df : List CustomerRow) (drop_null_age : Bool) :
    List CustomerFeatureRow :=
  let cleaned := (drop_na_age (filling_missing_club_member_status df)).map ageGroupAndCastRow
  if drop_null_age then cleaned.filter (fun r => r.age.isSome) else cleaned

/-- Nanoseconds per civil day. -/
def nsPerDay : Int := 86400000000000

/-- Civil day index (days since 1970-01-01) of an epoch-nanosecond
instant: the floor division polars performs when truncating a datetime
to its date. -/
def daysFromEpoch (ns : Int) : Int := Int.fdiv ns nsPerDay

/-- Proleptic-Gregorian date of a civil day index (days since
1970-01-01); the standard era-based civil-from-days algorithm, the
computation the host date library performs for `dt.year/month/day`. -/
def civilFromDays (z : Int) : Int × Nat × Nat :=
  let zs := z + 719468
  let era := Int.fdiv zs 146097
  let doe : Nat := (zs - era * 146097).toNat
  let yoe : Nat := (doe - doe / 1460 + doe / 36524 - doe / 146096) / 365
  let y : Int := (yoe : Int) + era * 400
  let doy : Nat := doe - (365 * yoe + yoe / 4 - yoe / 100)
  let mp : Nat := (5 * doy + 2) / 153
  let d : Nat := doy - (153 * mp + 2) / 5 + 1
  let m : Nat := if mp < 10 then mp + 3 else mp - 9
  (if m ≤ 2 then y + 1 else y, m, d)

/-- `pl.col("t_dat").dt.year()` on an epoch-nanosecond value. -/
def dtYear (ns : Int) : Int := (civilFromDays (daysFromEpoch ns)).1

/-- `pl.col("t_dat").dt.month()` on an epoch-nanosecond value (1-12). -/
def dtMonth (ns : Int) : Nat := (civilFromDays (daysFromEpoch ns)).2.1

/-- `pl.col("t_dat").dt.day()` on an epoch-nanosecond value (1-31). -/
def dtDay (ns : Int) : Nat := (civilFromDays (daysFromEpoch ns)).2.2

/-- `pl.col("t_dat").dt.weekday()` on an epoch-nanosecond value: ISO
weekday, Monday = 1 .. Sunday = 7 (1970-01-01 was a Thursday, code 4). -/
def dtWeekday (ns : Int) : Nat := ((daysFromEpoch ns + 3).emod 7).toNat + 1

/-- `convert_t_dat_to_epoch_millisecond` (`transactions.py`, lines
104-115): `df["t_dat"].cast(pl.Int64) // 1_000_000`, on one value.
polars `//` on integers is floor division (Python semantics), embedded
as `Int.fdiv`. -/
def convert_t_dat_to_epoch_millisecond (t : Int) : Int := Int.fdiv t 1000000

/-- Modelled from the spec's glossary: an epoch-millisecond is the
integer count of milliseconds since 00:00:00 UTC, Jan 1 1970.  A second
holds 10^9 nanoseconds and 10^3 milliseconds, so the conversion from the
nanosecond-unit epoch integer (the unit `convert_t_dat_to_datetime`
produces via `pandas.to_datetime`) divides by 10^9 / 10^3. -/
def nanosecondsPerMillisecond : Int := 1000000000 / 1000

/-- Spec-side conversion: epoch-millisecond value of an epoch-nanosecond
instant. -/
def epochMillisecondOfEpochNanosecond (t : Int) : Int :=
  Int.fdiv t nanosecondsPerMillisecond

/-- Transaction row after `compute_features_transactions`: original
columns with `article_id` cast to string and `t_dat` replaced by the
`// 1_000_000` integer, plus the four derived calendar columns. -/
structure TransactionFeatureRow where
  customer_id : String
  article_id : String
  t_dat : Int
  price : ℚ
  year : Int
  month : Nat
  day : Nat
  day_of_week : Nat
deriving DecidableEq, Repr

/-- First `with_columns` stage of `compute_features_transactions`
(`transactions.py`, lines 164-179): `pl.col("article_id").cast(pl.Utf8)`,
lossless `Int → String` on numeric identifiers.  The calendar and
`t_dat` fields are not yet derived. -/
def castArticleIdRow (r : TransactionRow) : TransactionFeatureRow :=
  ⟨r.customer_id, toString r.article_id, r.t_dat, r.price, 0, 0, 0, 0⟩

/-- Second `with_columns` stage: derive `year`, `month`, `day`,
`day_of_week` from the (still nanosecond) `t_dat`. -/
def calendarRow (r : TransactionFeatureRow) : TransactionFeatureRow :=
  { r with
    year := dtYear r.t_dat
    month := dtMonth r.t_dat
    day := dtDay r.t_dat
    day_of_week := dtWeekday r.t_dat }

/-- Third `with_columns` stage:
`(pl.col("t_dat").cast(pl.Int64) // 1_000_000).alias("t_dat")`. -/
def epochMsRow (r : TransactionFeatureRow) : TransactionFeatureRow :=
  { r with t_dat := convert_t_dat_to_epoch_millisecond r.t_dat }

/-- `compute_features_transactions` (`transactions.py`, lines 148-179):
the three chained `with_columns` stages, each a column-vectorised
(per-row) transform. -/
def compute_features_transactions (df : List TransactionRow) : List TransactionFeatureRow :=
  ((df.map castArticleIdRow).map calendarRow).map epochMsRow

/-- Spec-side per-row function: what one output row of
`compute_features_transactions` is as a pure function of the
corresponding input row's `t_dat` and `article_id`, other columns
untouched. -/
def txRowFeatures (r : TransactionRow) : TransactionFeatureRow :=
  ⟨r.customer_id, toString r.article_id,
    convert_t_dat_to_epoch_millisecond r.t_dat, r.price,
    dtYear r.t_dat, dtMonth r.t_dat, dtDay r.t_dat, dtWeekday r.t_dat⟩

/-- `month_sin` (`transactions.py`, lines 117-131): `sin(month * (2*pi/12))`,
elementwise on the month column.  The float computation is embedded over
the reals. -/
noncomputable def month_sin (m : ℝ) : ℝ := Real.sin (m * (2 * Real.pi / 12))

/-- `month_cos` (`transactions.py`, lines 133-144): `cos(month * (2*pi/12))`,
elementwise on the month column. -/
noncomputable def month_cos (m : ℝ) : ℝ := Real.cos (m * (2 * Real.pi / 12))

/-- Concrete customer row used by the evaluation witnesses. -/
def mkCustomer (i : Nat) : CustomerRow := ⟨toString i, some "ACTIVE", some 30, "z"⟩

/-- Concrete 1000-row customer table (exactly the SMALL size). -/
def wCustomers : List CustomerRow := (List.range 1000).map mkCustomer

/-- Concrete 1001-row customer table (one more row than the SMALL size). -/
def wCustomers1001 : List CustomerRow := (List.range 1001).map mkCustomer

/-- Concrete transaction of customer "5" on 2020-01-15 (epoch-nanosecond
value 18276 * 86400 * 10^9). -/
def wTx : TransactionRow := ⟨"5", 108775015, 1579046400000000000, 1⟩

/-- Concrete one-row transaction table. -/
def wTransactions : List TransactionRow := [wTx]

/-- The dataset the sampler returns on the concrete witness tables. -/
def wResult : SampledDataset :=
  (DatasetSampler.sample .SMALL wCustomers wTransactions 0).getD ⟨[], []⟩

/-- Concrete raw customer table of the spec's end-to-end scenario: ages
[10, null, 70], statuses [null, "ACTIVE", "ACTIVE"]. -/
def wRawCustomers : List CustomerRow :=
  [⟨"c1", none, some 10, "p"⟩, ⟨"c2", some "ACTIVE", none, "p"⟩,
    ⟨"c3", some "ACTIVE", some 70, "p"⟩]

/-- The cleaned feature row the scenario produces for customer "c1". -/
def wFeatureRow : CustomerFeatureRow := ⟨"c1", some "ABSENT", some 10, "p", "0-18"⟩

/-!  Sanity checks of the embedded calendar arithmetic. -/

/-- Day 0 of the epoch is 1970-01-01. -/
theorem civilFromDays_epoch : civilFromDays 0 = (1970, 1, 1) := by decide

/-- Day 18276 is 2020-01-15, and its calendar features match the spec's
example row (2020-01-15 was a Wednesday, ISO code 3). -/
theorem calendar_features_2020_01_15 :
    dtYear 1579046400000000000 = 2020 ∧ dtMonth 1579046400000000000 = 1 ∧
      dtDay 1579046400000000000 = 15 ∧ dtWeekday 1579046400000000000 = 3 := by
  decide

/-!  Claim theorems. -/

/-- C1: the claim says two calls of `DatasetSampler.sample` with
identical inputs yield identical row sets because the generator is
seeded with 42.  The code seeds only Python's stdlib generator, which
polars never reads; `DataFrame.sample` runs with `seed=None` and fresh
per-call entropy, so identical inputs can produce different outputs:
here the same 1001-row table sampled under two entropy values gives two
different results. -/
theorem sample_output_varies_with_polars_entropy :
    DatasetSampler.sample .SMALL wCustomers1001 [] 0 ≠
      DatasetSampler.sample .SMALL wCustomers1001 [] 1 := by
  decide

/-- C2: referential integrity of sampling: every transaction row
returned by `DatasetSampler.sample` carries a `customer_id` that occurs
among the returned customers. -/
theorem sample_referential_integrity (size : CustomerDatasetSize)
    (c : List CustomerRow) (t : List TransactionRow) (e : Nat)
    (r : SampledDataset) (h : DatasetSampler.sample size c t e = some r) :
    ∀ tx ∈ r.transactions, ∃ cu ∈ r.customers, cu.customer_id = tx.customer_id := by
  intro tx htx
  unfold DatasetSampler.sample at h
  cases hs : polarsSampleRows c (DatasetSampler.SIZES size) e with
  | none => rw [hs] at h; cases h
  | some sampled =>
    rw [hs] at h
    injection h with h
    subst h
    unfold joinOnCustomerId at htx
    rw [List.mem_flatMap] at htx
    obtain ⟨t0, _, hmem⟩ := htx
    rw [List.mem_map] at hmem
    obtain ⟨i, hi, rfl⟩ := hmem
    rw [List.mem_filter] at hi
    obtain ⟨hi1, hi2⟩ := hi
    rw [List.mem_map] at hi1
    obtain ⟨cu, hcu, hcid⟩ := hi1
    exact ⟨cu, hcu, by rw [hcid]; exact eq_of_beq hi2⟩

/-- C2 witness: on the concrete tables the sampler succeeds and the
transaction of customer "5" that survives the join has its customer
among the sampled rows. -/
theorem sample_referential_integrity_witness :
    ∃ cu ∈ wResult.customers, cu.customer_id = wTx.customer_id :=
  sample_referential_integrity .SMALL wCustomers wTransactions 0 wResult
    (by rfl) wTx (by decide)

/-- C6: the queryable size table maps LARGE to 50,000, MEDIUM to 5,000
and SMALL to 1,000, and whenever the customer table has at least as many
rows as the configured count, `DatasetSampler.sample` succeeds and
returns exactly that many customers. -/
theorem sample_returns_configured_size :
    DatasetSampler.get_supported_sizes .LARGE = 50000 ∧
    DatasetSampler.get_supported_sizes .MEDIUM = 5000 ∧
    DatasetSampler.get_supported_sizes .SMALL = 1000 ∧
    ∀ (size : CustomerDatasetSize) (c : List CustomerRow)
      (t : List TransactionRow) (e : Nat),
      DatasetSampler.get_supported_sizes size ≤ c.length →
      ∃ r, DatasetSampler.sample size c t e = some r ∧
        r.customers.length = DatasetSampler.get_supported_sizes size := by
  refine ⟨rfl, rfl, rfl, ?_⟩
  intro size c t e h
  unfold DatasetSampler.get_supported_sizes at h
  unfold DatasetSampler.sample polarsSampleRows
  rw [if_neg (not_lt.mpr h)]
  refine ⟨_, rfl, ?_⟩
  have hk : e % (c.length - DatasetSampler.SIZES size + 1) <
      c.length - DatasetSampler.SIZES size + 1 :=
    Nat.mod_lt _ (Nat.succ_pos _)
  simp only [List.length_take, List.length_drop]
  unfold DatasetSampler.get_supported_sizes
  omega

/-- C6 witness: on the concrete 1000-row table the SMALL sampler returns
exactly 1000 customers. -/
theorem sample_returns_configured_size_witness :
    ∃ r, DatasetSampler.sample .SMALL wCustomers wTransactions 0 = some r ∧
      r.customers.length = DatasetSampler.get_supported_sizes .SMALL :=
  sample_returns_configured_size.2.2.2 .SMALL wCustomers wTransactions 0 (by decide)

/-- C10: when the customer table has fewer rows than the configured
count, the without-replacement sampling step fails (polars raises a
`ShapeError`, embedded as `none`): the request is neither clamped nor
served with fewer rows; with at least that many rows the step never
fails. -/
theorem sample_insufficient_rows_errors (size : CustomerDatasetSize)
    (c : List CustomerRow) (t : List TransactionRow) (e : Nat) :
    (c.length < DatasetSampler.get_supported_sizes size →
      DatasetSampler.sample size c t e = none) ∧
    (DatasetSampler.get_supported_sizes size ≤ c.length →
      ∃ r, DatasetSampler.sample size c t e = some r) := by
  constructor
  · intro h
    unfold DatasetSampler.get_supported_sizes at h
    unfold DatasetSampler.sample polarsSampleRows
    rw [if_pos h]
  · intro h
    unfold DatasetSampler.get_supported_sizes at h
    unfold DatasetSampler.sample polarsSampleRows
    rw [if_neg (not_lt.mpr h)]
    exact ⟨_, rfl⟩

/-- C10 witness: the SMALL sampler fails on an empty customer table and
succeeds on the 1000-row one. -/
theorem sample_insufficient_rows_errors_witness :
    DatasetSampler.sample .SMALL [] wTransactions 0 = none ∧
    ∃ r, DatasetSampler.sample .SMALL wCustomers wTransactions 0 = some r :=
  ⟨(sample_insufficient_rows_errors .SMALL [] wTransactions 0).1 (by decide),
    (sample_insufficient_rows_errors .SMALL wCustomers wTransactions 0).2 (by decide)⟩

/-- Helper: functional characterization of `compute_features_customers`.
For either value of the flag, the output is: keep exactly the rows whose
`age` is non-null, fill their `club_member_status`, bin and project. -/
theorem compute_features_customers_eq (df : List CustomerRow) (flag : Bool) :
    compute_features_customers df flag =
      (df.filter (fun s => s.age.isSome)).map (fun s => ageGroupAndCastRow (fillClubRow s)) := by
  have h1 : drop_na_age (filling_missing_club_member_status df) =
      (df.filter (fun s => s.age.isSome)).map fillClubRow := by
    unfold drop_na_age filling_missing_club_member_status
    induction df with
    | nil => rfl
    | cons a l ih =>
      by_cases h : a.age.isSome <;>
        simp [List.filter_cons, fillClubRow, h, ih]
  unfold compute_features_customers
  rw [h1, List.map_map]
  cases flag with
  | false => rfl
  | true =>
    simp only [if_pos]
    have hall : ∀ r ∈ (df.filter (fun s => s.age.isSome)).map
        (ageGroupAndCastRow ∘ fillClubRow), r.age.isSome = true := by
      intro r hr
      rw [List.mem_map] at hr
      obtain ⟨s, hs, rfl⟩ := hr
      rw [List.mem_filter] at hs
      simpa [Function.comp, ageGroupAndCastRow, fillClubRow] using hs.2
    rw [List.filter_eq_self.mpr hall]
    rfl

/-- C5: null-handling postcondition of `compute_features_customers`,
for either value of `drop_null_age`: every output row has a non-null
`club_member_status` and a non-null `age`, its `age_group` is the (never
null) bin of that age, and every input row with non-null age whose
status was null shows up with the literal `"ABSENT"`; rows whose
original `age` was null never appear, since output rows keep the age of
the input row they come from. -/
theorem compute_features_customers_null_handling (df : List CustomerRow) (flag : Bool) :
    (∀ r ∈ compute_features_customers df flag,
      r.club_member_status.isSome ∧
        ∃ a : ℚ, r.age = some a ∧ r.age_group = create_age_group a) ∧
    (∀ s ∈ df, s.age.isSome → s.club_member_status = none →
      ∃ r ∈ compute_features_customers df flag,
        r.customer_id = s.customer_id ∧ r.club_member_status = some "ABSENT") := by
  constructor
  · intro r hr
    rw [compute_features_customers_eq, List.mem_map] at hr
    obtain ⟨s, hs, rfl⟩ := hr
    rw [List.mem_filter] at hs
    obtain ⟨a, ha⟩ := Option.isSome_iff_exists.mp hs.2
    exact ⟨by simp [ageGroupAndCastRow, fillClubRow],
      a, by simp [ageGroupAndCastRow, fillClubRow, ha],
      by simp [ageGroupAndCastRow, fillClubRow, ha]⟩
  · intro s hs hsome hnone
    refine ⟨ageGroupAndCastRow (fillClubRow s), ?_, rfl, ?_⟩
    · rw [compute_features_customers_eq]
      exact List.mem_map_of_mem _ (List.mem_filter.mpr ⟨hs, hsome⟩)
    · simp [ageGroupAndCastRow, fillClubRow, hnone]

/-- C5 witness: the spec's end-to-end scenario (ages [10, null, 70],
statuses [null, "ACTIVE", "ACTIVE"]): the surviving "c1" row has
non-null status and age 10 binned consistently, and the null status of
"c1" in the input surfaces as the literal "ABSENT". -/
theorem compute_features_customers_null_handling_witness :
    (wFeatureRow.club_member_status.isSome ∧
      ∃ a : ℚ, wFeatureRow.age = some a ∧ wFeatureRow.age_group = create_age_group a) ∧
    ∃ r ∈ compute_features_customers wRawCustomers false,
      r.customer_id = ("c1" : String) ∧ r.club_member_status = some "ABSENT" :=
  ⟨(compute_features_customers_null_handling wRawCustomers false).1 wFeatureRow (by decide),
    (compute_features_customers_null_handling wRawCustomers false).2
      ⟨"c1", none, some 10, "p"⟩ (by decide) (by decide) rfl⟩

/-- C9: the `drop_null_age` flag is a no-op: the unconditional
null-`age` drop of step 3 already removed every null age, so the extra
`drop_nulls(subset=["age"])` guarded by the flag removes nothing and
both flag values return the same table. -/
theorem drop_null_age_flag_noop (df : List CustomerRow) :
    compute_features_customers df true = compute_features_customers df false :=
  (compute_features_customers_eq df true).trans (compute_features_customers_eq df false).symm

/-- C4: age binning is total, exclusive and boundary-correct.  For every
age `a ≥ 0` (fractional allowed) the assigned label is exactly
characterized: each of the six closed ranges holds iff its label is
produced, `"66+"` is produced iff no range matches (in particular for
every `a ≥ 66`), and the result is always one of the seven labels. -/
theorem create_age_group_correct (a : ℚ) (h0 : 0 ≤ a) :
    (create_age_group a = "0-18" ↔ a ≤ 18) ∧
    (create_age_group a = "19-25" ↔ 19 ≤ a ∧ a ≤ 25) ∧
    (create_age_group a = "26-35" ↔ 26 ≤ a ∧ a ≤ 35) ∧
    (create_age_group a = "36-45" ↔ 36 ≤ a ∧ a ≤ 45) ∧
    (create_age_group a = "46-55" ↔ 46 ≤ a ∧ a ≤ 55) ∧
    (create_age_group a = "56-65" ↔ 56 ≤ a ∧ a ≤ 65) ∧
    (create_age_group a = "66+" ↔
      ¬(a ≤ 18 ∨ (19 ≤ a ∧ a ≤ 25) ∨ (26 ≤ a ∧ a ≤ 35) ∨ (36 ≤ a ∧ a ≤ 45) ∨
        (46 ≤ a ∧ a ≤ 55) ∨ (56 ≤ a ∧ a ≤ 65))) ∧
    (66 ≤ a → create_age_group a = "66+") ∧
    create_age_group a ∈ ["0-18", "19-25", "26-35", "36-45", "46-55", "56-65", "66+"] := by
  unfold create_age_group
  split_ifs with h1 h2 h3 h4 h5 h6
  · exact ⟨iff_of_true rfl h1.2,
      iff_of_false (by decide) (fun hp => by linarith [h1.2, hp.1]),
      iff_of_false (by decide) (fun hp => by linarith [h1.2, hp.1]),
      iff_of_false (by decide) (fun hp => by linarith [h1.2, hp.1]),
      iff_of_false (by decide) (fun hp => by linarith [h1.2, hp.1]),
      iff_of_false (by decide) (fun hp => by linarith [h1.2, hp.1]),
      iff_of_false (by decide) (fun hno => hno (Or.inl h1.2)),
      fun h66 => absurd (le_trans h66 h1.2) (by norm_num),
      by decide⟩
  · exact ⟨iff_of_false (by decide) (fun hle => h1 ⟨h0, hle⟩),
      iff_of_true rfl h2,
      iff_of_false (by decide) (fun hp => by linarith [h2.2, hp.1]),
      iff_of_false (by decide) (fun hp => by linarith [h2.2, hp.1]),
      iff_of_false (by decide) (fun hp => by linarith [h2.2, hp.1]),
      iff_of_false (by decide) (fun hp => by linarith [h2.2, hp.1]),
      iff_of_false (by decide) (fun hno => hno (Or.inr (Or.inl h2))),
      fun h66 => absurd (le_trans h66 h2.2) (by norm_num),
      by decide⟩
  · exact ⟨iff_of_false (by decide) (fun hle => h1 ⟨h0, hle⟩),
      iff_of_false (by decide) h2,
      iff_of_true rfl h3,
      iff_of_false (by decide) (fun hp => by linarith [h3.2, hp.1]),
      iff_of_false (by decide) (fun hp => by linarith [h3.2, hp.1]),
      iff_of_false (by decide) (fun hp => by linarith [h3.2, hp.1]),
      iff_of_false (by decide) (fun hno => hno (Or.inr (Or.inr (Or.inl h3)))),
      fun h66 => absurd (le_trans h66 h3.2) (by norm_num),
      by decide⟩
  · exact ⟨iff_of_false (by decide) (fun hle => h1 ⟨h0, hle⟩),
      iff_of_false (by decide) h2,
      iff_of_false (by decide) h3,
      iff_of_true rfl h4,
      iff_of_false (by decide) (fun hp => by linarith [h4.2, hp.1]),
      iff_of_false (by decide) (fun hp => by linarith [h4.2, hp.1]),
      iff_of_false (by decide) (fun hno => hno (Or.inr (Or.inr (Or.inr (Or.inl h4))))),
      fun h66 => absurd (le_trans h66 h4.2) (by norm_num),
      by decide⟩
  · exact ⟨iff_of_false (by decide) (fun hle => h1 ⟨h0, hle⟩),
      iff_of_false (by decide) h2,
      iff_of_false (by decide) h3,
      iff_of_false (by decide) h4,
      iff_of_true rfl h5,
      iff_of_false (by decide) (fun hp => by linarith [h5.2, hp.1]),
      iff_of_false (by decide)
        (fun hno => hno (Or.inr (Or.inr (Or.inr (Or.inr (Or.inl h5)))))),
      fun h66 => absurd (le_trans h66 h5.2) (by norm_num),
      by decide⟩
  · exact ⟨iff_of_false (by decide) (fun hle => h1 ⟨h0, hle⟩),
      iff_of_false (by decide) h2,
      iff_of_false (by decide) h3,
      iff_of_false (by decide) h4,
      iff_of_false (by decide) h5,
      iff_of_true rfl h6,
      iff_of_false (by decide)
        (fun hno => hno (Or.inr (Or.inr (Or.inr (Or.inr (Or.inr h6)))))),
      fun h66 => absurd (le_trans h66 h6.2) (by norm_num),
      by decide⟩
  · exact ⟨iff_of_false (by decide) (fun hle => h1 ⟨h0, hle⟩),
      iff_of_false (by decide) h2,
      iff_of_false (by decide) h3,
      iff_of_false (by decide) h4,
      iff_of_false (by decide) h5,
      iff_of_false (by decide) h6,
      iff_of_true rfl
        (fun hd => by
          rcases hd with h | h | h | h | h | h
          exacts [h1 ⟨h0, h⟩, h2 h, h3 h, h4 h, h5 h, h6 h]),
      fun _ => rfl,
      by decide⟩

/-- C4 witness: the claimed boundary values: age 18 is binned "0-18",
19 is "19-25", 65 is "56-65" and 66 is "66+". -/
theorem create_age_group_correct_witness :
    create_age_group 18 = "0-18" ∧ create_age_group 19 = "19-25" ∧
      create_age_group 65 = "56-65" ∧ create_age_group 66 = "66+" :=
  ⟨(create_age_group_correct 18 (by norm_num)).1.mpr (by norm_num),
    (create_age_group_correct 19 (by norm_num)).2.1.mpr (by norm_num),
    (create_age_group_correct 65 (by norm_num)).2.2.2.2.2.1.mpr (by norm_num),
    (create_age_group_correct 66 (by norm_num)).2.2.2.2.2.2.2.1 (by norm_num)⟩

/-- C3: in the output of `compute_features_transactions` the `t_dat`
column holds the epoch-millisecond integer of the input timestamp: the
host timestamp's native epoch integer is in nanoseconds (the column is
produced by `pandas.to_datetime`, resolution `datetime64[ns]`), and the
code's fixed divisor 1,000,000 is exactly the nanoseconds-per-millisecond
ratio, so the division lands on milliseconds. -/
theorem t_dat_epoch_millisecond :
    (∀ df : List TransactionRow,
      (compute_features_transactions df).map (fun r => r.t_dat) =
        df.map (fun r => epochMillisecondOfEpochNanosecond r.t_dat)) ∧
    (∀ t : Int, convert_t_dat_to_epoch_millisecond t = epochMillisecondOfEpochNanosecond t) ∧
    nanosecondsPerMillisecond = 1000000 := by
  refine ⟨?_, fun t => rfl, rfl⟩
  intro df
  unfold compute_features_transactions
  simp only [List.map_map]
  rfl

/-- C7: `compute_features_transactions` drops no rows and mutates
nothing it does not derive: the output is the row-by-row image of the
pure function `txRowFeatures`, so the row count is unchanged and every
derived column (`year`, `month`, `day`, `day_of_week`, the replaced
`t_dat`, the string `article_id`) is a deterministic function of the
row's `t_dat` or `article_id` alone, while the untouched columns
(`customer_id`, `price`) are carried over unchanged. -/
theorem compute_features_transactions_rowwise (df : List TransactionRow) :
    compute_features_transactions df = df.map txRowFeatures ∧
    (compute_features_transactions df).length = df.length ∧
    ∀ r : TransactionRow,
      (txRowFeatures r).customer_id = r.customer_id ∧
      (txRowFeatures r).price = r.price ∧
      (txRowFeatures r).article_id = toString r.article_id ∧
      (txRowFeatures r).t_dat = convert_t_dat_to_epoch_millisecond r.t_dat ∧
      (txRowFeatures r).year = dtYear r.t_dat ∧
      (txRowFeatures r).month = dtMonth r.t_dat ∧
      (txRowFeatures r).day = dtDay r.t_dat ∧
      (txRowFeatures r).day_of_week = dtWeekday r.t_dat := by
  have h : compute_features_transactions df = df.map txRowFeatures := by
    unfold compute_features_transactions
    simp only [List.map_map]
    rfl
  exact ⟨h, by rw [h, List.length_map],
    fun r => ⟨rfl, rfl, rfl, rfl, rfl, rfl, rfl, rfl⟩⟩

/-- Helper: adding one period of 12 months leaves the raw sine/cosine
formulas unchanged, because 12 * (2π/12) = 2π. -/
theorem month_sin_cos_add_twelve (m : ℝ) :
    month_sin (m + 12) = month_sin m ∧ month_cos (m + 12) = month_cos m := by
  unfold month_sin month_cos
  have harg : (m + 12) * (2 * Real.pi / 12) = m * (2 * Real.pi / 12) + 2 * Real.pi := by
    ring
  rw [harg, Real.sin_add_two_pi, Real.cos_add_two_pi]
  exact ⟨rfl, rfl⟩

/-- C8: cyclical encoding identities: for months 1..12 the sine/cosine
pair lies within 1e-9 of the unit circle (it lies exactly on it), and
the raw formulas take identical values on month inputs congruent modulo
12; in particular `month_sin 1 = month_sin 13`. -/
theorem month_cyclical_encoding :
    (∀ m : ℝ, 1 ≤ m → m ≤ 12 →
      |month_sin m ^ 2 + month_cos m ^ 2 - 1| ≤ 1e-9) ∧
    (∀ (m : ℝ) (k : ℕ),
      month_sin (m + 12 * k) = month_sin m ∧ month_cos (m + 12 * k) = month_cos m) ∧
    month_sin 1 = month_sin 13 := by
  have hper : ∀ (m : ℝ) (k : ℕ),
      month_sin (m + 12 * k) = month_sin m ∧ month_cos (m + 12 * k) = month_cos m := by
    intro m k
    induction k with
    | zero => simp
    | succ k ih =>
      have harg : m + 12 * ((k + 1 : ℕ) : ℝ) = (m + 12 * k) + 12 := by
        push_cast
        ring
      rw [harg, (month_sin_cos_add_twelve (m + 12 * k)).1,
        (month_sin_cos_add_twelve (m + 12 * k)).2] at *
      exact ih
  refine ⟨?_, hper, ?_⟩
  · intro m _ _
    unfold month_sin month_cos
    rw [Real.sin_sq_add_cos_sq]
    norm_num
  · have h := (hper 1 1).1
    norm_num at h
    exact h.symm

/-- C8 witness: at month 3 the encoded pair is within 1e-9 of the unit
circle. -/
theorem month_cyclical_encoding_witness :
    |month_sin 3 ^ 2 + month_cos 3 ^ 2 - 1| ≤ 1e-9 :=
  month_cyclical_encoding.1 3 (by norm_num) (by norm_num)

end RecSys
